import Mathlib

/-!
# Verification of the video-pipeline orchestrator

Shallow embedding of the resumable media pipeline (`main.py`, `utils.py`):
per-scene artifact paths, the filesystem as a set of existing paths, the
remote calls performed by the scene stage, the concatenation stage, the
transport retry loop and the long-running-job poll loop.  Remote services
are modelled by outcome oracles; wall-clock time by a natural-number clock.
-/

namespace VideoPipeline

/-! ## Artifact paths

`f"scene_{scene_id:02d}"` zero-pads the scene id to (at least) two digits. -/

def pad2 (n : Nat) : String :=
  if n < 10 then "0" ++ toString n else toString n

def audioPath (id : Nat) : String := "audio/scene_" ++ pad2 id ++ ".mp3"

def videoPath (id : Nat) : String := "video/scene_" ++ pad2 id ++ ".mp4"

def framePath (id : Nat) : String := "frames/scene_" ++ pad2 id ++ "_last.png"

/-- The durable artifact store: which paths currently exist.  `setFile` is a
file being created (written) at a path. -/
def setFile (fs : String → Bool) (p : String) : String → Bool :=
  fun n => if n = p then true else fs n

/-! ## Data model -/

/-- One scene descriptor as loaded from `script.json`
(`scene["scene_id"]`, `scene["ssml"]`, `scene["visual_desc"]`,
`scene.get("transition_hint", "")`). -/
structure Scene where
  scene_id : Nat
  ssml : String
  visual_desc : String
  transition_hint : String := ""
deriving DecidableEq

/-- Optional reference image embedded in a Veo submission payload
(`{"bytesBase64Encoded": ..., "mimeType": ...}`). -/
structure VeoImage where
  bytesBase64Encoded : String
  mimeType : String
deriving DecidableEq

/-- The body of one Veo `predictLongRunning` submission: the instance holds
the prompt and, only when a reference image was attached, the image. -/
structure VeoPayload where
  prompt : String
  image : Option VeoImage
deriving DecidableEq

/-- One remote-service interaction performed by the pipeline. -/
inductive RemoteCall where
  | genText (web_search : Bool)
  | tts (input : String) (out_path : String)
  | veoSubmit (payload : VeoPayload)
  | veoPoll
  | veoDownload (out_path : String)
deriving DecidableEq

/-- Outcome oracle for one scene's remote steps: the speech-synthesis call
and the video-generation job can each fail (any exception in `process_scene`
is caught by its `try`). -/
inductive Outcome where
  | success
  | ttsFail
  | veoFail
deriving DecidableEq

/-- Base64 file contents, kept abstract: only presence/absence matters. -/
def b64Of (p : String) : String := "base64:" ++ p

/-- `not prompt.strip()`: the string contains nothing but whitespace. -/
def strIsBlank (s : String) : Bool :=
  s.data.all fun c => c == ' ' || c == '\t' || c == '\n' || c == '\r'

/-- `"image/png" if image_path.lower().endswith(".png") else "image/jpeg"` -/
def mimeOf (p : String) : String :=
  if (".png" : String).data.isSuffixOf (p.data.map Char.toLower) then
    "image/png"
  else "image/jpeg"

/-- `VeoClient.generate_video_with_image` (`utils.py`): empty prompt is
rejected; the reference image is base64-embedded only when the local file
exists; then the job is submitted, polled and the result downloaded.
`veoOk` is the outcome oracle for the whole submit/poll/download dance
(`_start_job` missing operation name, poll timeout, missing URI or download
failure all raise); on failure the submission has still been sent.  The
poll iterations are collapsed to one representative `veoPoll` (the poll
loop's timing is modelled separately by `poll_go`). -/
def generate_video_with_image (veoOk : Bool) (fileset : String → Bool)
    (prompt : String) (out_path : String) (image_path : Option String) :
    Option String × List RemoteCall :=
  if strIsBlank prompt then (none, [])
  else
    let image_b64 : Option String :=
      match image_path with
      | some p => if fileset p then some (b64Of p) else none
      | none => none
    let payload : VeoPayload :=
      { prompt := prompt
        image :=
          match image_b64, image_path with
          | some b, some p => some { bytesBase64Encoded := b, mimeType := mimeOf p }
          | _, _ => none }
    if veoOk then
      (some out_path, [RemoteCall.veoSubmit payload, RemoteCall.veoPoll,
        RemoteCall.veoDownload out_path])
    else
      (none, [RemoteCall.veoSubmit payload])

/-- The fixed introductory prompt used for scene 1 (`main.py`). -/
def introPrompt : String :=
  "Generate a cinematic 8-second news introduction scene\n" ++
  "featuring a professional Vietnamese female anchor (around 30 years old) in a modern TV newsroom.\n" ++
  "She smiles gently, looks directly at the camera, and greets the audience confidently.\n" ++
  "She wears a red traditional ao dai with subtle golden patterns.\n" ++
  "Lighting: warm and balanced, elegant studio atmosphere.\n" ++
  "Camera: 35mm, eye level, slow push-in motion.\n" ++
  "No on-screen text, only natural movement and environment."

/-- Modelled from the spec: the per-scene prompt template file
`prompts/scene_prompt.txt` is not part of `src/`; per the spec the prompt
"combines the scene's visual description with the continuity hint from the
previous scene" (and the previous scene's visual description, the three
`format` fields `prev_visual`, `transition_hint`, `main_visual`). -/
def scenePromptRender (prev_visual transition_hint main_visual : String) : String :=
  prev_visual ++ "\n" ++ transition_hint ++ "\n" ++ main_visual

/-- The per-scene artifact paths returned by `process_scene`. -/
structure SceneResult where
  audio : String
  video : String
  frame : String
deriving DecidableEq

/-- `process_scene` (`main.py`): skip (returning the three artifact paths,
with no remote call) when both the audio and the video artifact already
exist; otherwise speech synthesis, then Veo video generation (scene 1 uses
the fixed introductory prompt and no image reference; later scenes compute
the previous scene's last-frame path but the source immediately reassigns
`image_ref = None` before use), then local last-frame extraction (failure
there is logged and tolerated; modelled as the frame being written).
Returns the produced result, the remote calls made, and the updated
filesystem; any failure returns `none` after the calls already made. -/
def process_scene (o : Nat → Outcome) (fs : String → Bool)
    (scene : Scene) (prev_scene : Option Scene) :
    Option SceneResult × List RemoteCall × (String → Bool) :=
  let scene_id := scene.scene_id
  let audio_path := audioPath scene_id
  let video_path := videoPath scene_id
  let frame_path := framePath scene_id
  if fs audio_path && fs video_path then
    (some ⟨audio_path, video_path, frame_path⟩, [], fs)
  else
    let ttsCall := RemoteCall.tts scene.ssml audio_path
    if o scene_id = Outcome.ttsFail then
      (none, [ttsCall], fs)
    else
      let fs := setFile fs audio_path
      let prompt :=
        if scene_id = 1 then introPrompt
        else
          scenePromptRender
            (match prev_scene with | some p => p.visual_desc | none => "")
            scene.transition_hint scene.visual_desc
      let image_ref : Option String :=
        if scene_id = 1 then none
        else
          let image_ref : Option String :=
            match prev_scene with
            | some p => some (framePath p.scene_id)
            | none => none
          none
      let image_arg : Option String :=
        match image_ref with
        | some r => if fs r then some r else none
        | none => none
      match generate_video_with_image (decide (o scene_id = Outcome.success)) fs
          prompt video_path image_arg with
      | (none, vcalls) => (none, ttsCall :: vcalls, fs)
      | (some _, vcalls) =>
        let fs := setFile fs video_path
        let fs := setFile fs frame_path
        (some ⟨audio_path, video_path, frame_path⟩, ttsCall :: vcalls, fs)

/-- The scene loop body of `generate_scenes`: on success the result is
collected and the scene becomes the next iteration's `prev_scene`; on
failure the error is recorded and iteration continues with the next scene. -/
def scenesLoop (o : Nat → Outcome) :
    List Scene → Option Scene → (String → Bool) →
    List SceneResult × List RemoteCall × (String → Bool)
  | [], _, fs => ([], [], fs)
  | scene :: rest, prev, fs =>
    match process_scene o fs scene prev with
    | (some r, calls, fs') =>
      let t := scenesLoop o rest (some scene) fs'
      (r :: t.1, calls ++ t.2.1, t.2.2)
    | (none, calls, fs') =>
      let t := scenesLoop o rest prev fs'
      (t.1, calls ++ t.2.1, t.2.2)

/-- `generate_scenes` (`main.py`): nothing happens when the script file is
missing; otherwise the loop runs over `scenes[:2]` — only the first two
scenes of the loaded script.  Returns the successfully generated results
(whose count is the stage's reported completion count), the remote calls,
and the final filesystem. -/
def generate_scenes (o : Nat → Outcome) (script : Option (List Scene))
    (fs : String → Bool) :
    List SceneResult × List RemoteCall × (String → Bool) :=
  match script with
  | none => ([], [], fs)
  | some scenes => scenesLoop o (scenes.take 2) none fs

/-! ## Theorems about the scene stage -/

theorem scenesLoop_length_le (o : Nat → Outcome) :
    ∀ (l : List Scene) (prev : Option Scene) (fs : String → Bool),
      (scenesLoop o l prev fs).1.length ≤ l.length := by
  intro l
  induction l with
  | nil =>
    intro prev fs
    simp [scenesLoop]
  | cons s rest ih =>
    intro prev fs
    rcases hp : process_scene o fs s prev with ⟨res, calls, fs'⟩
    cases res with
    | none =>
      simpa [scenesLoop, hp] using Nat.le_succ_of_le (ih prev fs')
    | some r =>
      simpa [scenesLoop, hp] using Nat.succ_le_succ (ih (some s) fs')

/-- C1: for a scene whose audio and video artifacts both already exist,
`process_scene` performs zero remote calls, leaves the filesystem
untouched, and returns the existing artifact paths. -/
theorem c1_idempotent_skip (o : Nat → Outcome) (fs : String → Bool)
    (scene : Scene) (prev_scene : Option Scene)
    (ha : fs (audioPath scene.scene_id) = true)
    (hv : fs (videoPath scene.scene_id) = true) :
    process_scene o fs scene prev_scene =
      (some ⟨audioPath scene.scene_id, videoPath scene.scene_id,
        framePath scene.scene_id⟩, [], fs) := by
  simp [process_scene, ha, hv]

theorem c1_idempotent_skip_witness :
    (fun _ : String => true) (audioPath 1) = true ∧
    (fun _ : String => true) (videoPath 1) = true ∧
    process_scene (fun _ => Outcome.success) (fun _ => true)
        ⟨1, "xin chao", "studio", ""⟩ none =
      (some ⟨audioPath 1, videoPath 1, framePath 1⟩, [], fun _ => true) :=
  ⟨rfl, rfl, c1_idempotent_skip _ _ _ _ rfl rfl⟩

/-- C2: evaluation of the scene stage on a 5-scene script in which exactly
scene 3 fails.  The source loop runs over `scenes[:2]`, so only scenes 1
and 2 are processed and reported (2 successes); scenes 3, 4 and 5 — which
the claim (and the module docstring "generate all scenes") require to be
attempted, with 4 successes and 1 recorded failure — are never even
started: no speech-synthesis call for scene 3 appears in the trace. -/
theorem c2_scene3_of_5_eval :
    ((generate_scenes
        (fun id => if id = 3 then Outcome.veoFail else Outcome.success)
        (some [⟨1, "n1", "v1", ""⟩, ⟨2, "n2", "v2", "t2"⟩, ⟨3, "n3", "v3", "t3"⟩,
               ⟨4, "n4", "v4", "t4"⟩, ⟨5, "n5", "v5", "t5"⟩])
        (fun _ => false)).1).map SceneResult.audio = [audioPath 1, audioPath 2] ∧
    RemoteCall.tts "n3" (audioPath 3) ∉
      ((generate_scenes
        (fun id => if id = 3 then Outcome.veoFail else Outcome.success)
        (some [⟨1, "n1", "v1", ""⟩, ⟨2, "n2", "v2", "t2"⟩, ⟨3, "n3", "v3", "t3"⟩,
               ⟨4, "n4", "v4", "t4"⟩, ⟨5, "n5", "v5", "t5"⟩])
        (fun _ => false)).2.1) := by
  constructor
  · decide
  · decide

/-- C9: the scene stage only ever iterates over the first two scenes of the
loaded script (`for scene in scenes[:2]`): its entire behaviour coincides
with running it on the two-scene truncation, and at most two scenes are
reported complete. -/
theorem c9_first_two_scenes_only (o : Nat → Outcome) (scenes : List Scene)
    (fs : String → Bool) :
    generate_scenes o (some scenes) fs =
      generate_scenes o (some (scenes.take 2)) fs ∧
    (generate_scenes o (some scenes) fs).1.length ≤ 2 := by
  constructor
  · simp [generate_scenes, List.take_take]
  · exact le_trans (scenesLoop_length_le o (scenes.take 2) none fs)
      (List.length_take_le 2 scenes)

theorem generate_video_with_image_image_none (veoOk : Bool)
    (fileset : String → Bool) (prompt out_path : String) (p : VeoPayload)
    (hp : RemoteCall.veoSubmit p ∈
      (generate_video_with_image veoOk fileset prompt out_path none).2) :
    p.image = none := by
  unfold generate_video_with_image at hp
  split at hp
  · simp at hp
  · split at hp <;> split at hp <;> simp_all

theorem process_scene_veoSubmit_image_none (o : Nat → Outcome)
    (fs : String → Bool) (scene : Scene) (prev : Option Scene) (p : VeoPayload)
    (hp : RemoteCall.veoSubmit p ∈ (process_scene o fs scene prev).2.1) :
    p.image = none := by
  cases prev with
  | none =>
    unfold process_scene at hp
    dsimp only at hp
    split at hp
    · simp at hp
    · split at hp
      · simp at hp
      · split at hp
        · rename_i vcalls heq
          simp only [ite_self] at heq
          simp at hp
          exact generate_video_with_image_image_none _ _ _ _ p (by rw [heq]; exact hp)
        · rename_i val vcalls heq
          simp only [ite_self] at heq
          simp at hp
          exact generate_video_with_image_image_none _ _ _ _ p (by rw [heq]; exact hp)
  | some q =>
    unfold process_scene at hp
    dsimp only at hp
    split at hp
    · simp at hp
    · split at hp
      · simp at hp
      · split at hp
        · rename_i vcalls heq
          simp only [ite_self] at heq
          simp at hp
          exact generate_video_with_image_image_none _ _ _ _ p (by rw [heq]; exact hp)
        · rename_i val vcalls heq
          simp only [ite_self] at heq
          simp at hp
          exact generate_video_with_image_image_none _ _ _ _ p (by rw [heq]; exact hp)

theorem scenesLoop_veoSubmit_image_none (o : Nat → Outcome) :
    ∀ (l : List Scene) (prev : Option Scene) (fs : String → Bool)
      (p : VeoPayload),
      RemoteCall.veoSubmit p ∈ (scenesLoop o l prev fs).2.1 → p.image = none := by
  intro l
  induction l with
  | nil =>
    intro prev fs p hp
    simp [scenesLoop] at hp
  | cons s rest ih =>
    intro prev fs p hp
    rcases hps : process_scene o fs s prev with ⟨res, calls, fs'⟩
    cases res with
    | none =>
      simp only [scenesLoop, hps] at hp
      rcases List.mem_append.mp hp with h | h
      · exact process_scene_veoSubmit_image_none o fs s prev p (by rw [hps]; exact h)
      · exact ih prev fs' p h
    | some r =>
      simp only [scenesLoop, hps] at hp
      rcases List.mem_append.mp hp with h | h
      · exact process_scene_veoSubmit_image_none o fs s prev p (by rw [hps]; exact h)
      · exact ih (some s) fs' p h

/-- C10: every video-generation submission made by the scene stage carries
no reference-image attachment — the previous-scene last-frame path is
discarded (`image_ref = None`) before the job client is invoked, so every
submitted payload holds only the prompt. -/
theorem c10_no_image_in_submission (o : Nat → Outcome)
    (script : Option (List Scene)) (fs : String → Bool) (p : VeoPayload)
    (hp : RemoteCall.veoSubmit p ∈ (generate_scenes o script fs).2.1) :
    p.image = none := by
  cases script with
  | none => simp [generate_scenes] at hp
  | some scenes =>
    exact scenesLoop_veoSubmit_image_none o (scenes.take 2) none fs p hp

set_option maxRecDepth 8000 in
theorem c10_no_image_in_submission_witness :
    RemoteCall.veoSubmit ⟨introPrompt, none⟩ ∈
      (generate_scenes (fun _ => Outcome.success)
        (some [⟨1, "n1", "v1", ""⟩]) (fun _ => false)).2.1 ∧
    (⟨introPrompt, none⟩ : VeoPayload).image = none :=
  ⟨by decide, c10_no_image_in_submission (fun _ => Outcome.success)
    (some [⟨1, "n1", "v1", ""⟩]) (fun _ => false) ⟨introPrompt, none⟩ (by decide)⟩

/-! ## Concatenation stage -/

/-- Local working-directory state of the concatenation step: which files
exist, the text files written (with their lines, in order), and the ffmpeg
invocations performed (with their argument lists, in order). -/
structure ConcatSt where
  files : String → Bool
  writes : List (String × List String)
  runs : List (List String)

/-- `open(name, "w")` followed by writing `lines`. -/
def writeTextFile (st : ConcatSt) (name : String) (lines : List String) : ConcatSt :=
  { st with files := setFile st.files name
            writes := st.writes ++ [(name, lines)] }

/-- A file produced by a successful ffmpeg invocation. -/
def createFile (st : ConcatSt) (name : String) : ConcatSt :=
  { st with files := setFile st.files name }

/-- `Path(name).unlink(missing_ok=True)`. -/
def removeFile (st : ConcatSt) (name : String) : ConcatSt :=
  { st with files := fun n => if n = name then false else st.files n }

/-- `subprocess.run([...], check=True)` being invoked. -/
def runCmd (st : ConcatSt) (cmd : List String) : ConcatSt :=
  { st with runs := st.runs ++ [cmd] }

/-- One `file '<path>'` line of a concat list. -/
def fileLine (v : String) : String :=
  "file " ++ String.singleton (Char.ofNat 39) ++ v ++ String.singleton (Char.ofNat 39)

/-- `concat_videos` (`utils.py`): write the video concat list, stream-copy
concatenate the videos, write the audio concat list, concatenate the audio,
mux the merged video with the merged audio (`-shortest`), then unlink the
two list files and the two merged temporaries.  `ok k` tells whether the
`k`-th ffmpeg subprocess succeeds; `check=True` makes a failing subprocess
raise `CalledProcessError`, which propagates out of the function at that
point — the result is `false` and the state is whatever had been built up
so far (the unlink calls at the end are not in a `finally` block). -/
def concat_videos (ok : Nat → Bool) (video_list audio_list : List String)
    (output_path : String) (st : ConcatSt) : Bool × ConcatSt :=
  let st := writeTextFile st "concat_list.txt" (video_list.map fileLine)
  let st := runCmd st ["ffmpeg", "-f", "concat", "-safe", "0",
    "-i", "concat_list.txt", "-c", "copy", "merged_temp.mp4"]
  if ok 0 = false then (false, st)
  else
    let st := createFile st "merged_temp.mp4"
    let st := writeTextFile st "concat_audio.txt" (audio_list.map fileLine)
    let st := runCmd st ["ffmpeg", "-f", "concat", "-safe", "0",
      "-i", "concat_audio.txt", "-c", "copy", "merged_audio.mp3"]
    if ok 1 = false then (false, st)
    else
      let st := createFile st "merged_audio.mp3"
      let st := runCmd st ["ffmpeg", "-i", "merged_temp.mp4", "-i", "merged_audio.mp3",
        "-c:v", "copy", "-map", "0:v:0", "-map", "1:a:0", "-shortest", output_path]
      if ok 2 = false then (false, st)
      else
        let st := createFile st output_path
        let st := removeFile st "concat_list.txt"
        let st := removeFile st "concat_audio.txt"
        let st := removeFile st "merged_temp.mp4"
        let st := removeFile st "merged_audio.mp3"
        (true, st)

/-- Lexicographic comparison of strings as lists of characters (by Unicode
scalar value), the order Python uses to compare `sorted` keys. -/
def lexLe : List Char → List Char → Bool
  | [], _ => true
  | _ :: _, [] => false
  | a :: as, b :: bs =>
    if a < b then true
    else if b < a then false
    else lexLe as bs

abbrev strLeRel (a b : String) : Prop := lexLe a.data b.data = true

/-- `sorted(...)` on a list of paths within one directory: Python sorts the
paths lexicographically by their (string) components; timsort is a stable
comparison sort, modelled by the stable `insertionSort`. -/
def sortPaths (l : List String) : List String :=
  List.insertionSort strLeRel l

/-- The filename of one per-scene artifact as matched by
`glob("scene_*.mp3")` / `glob("scene_*.mp4")`. -/
def sceneFile (ext : String) (id : Nat) : String :=
  "scene_" ++ pad2 id ++ ext

/-- Stage-level error kinds (spec section 7): a missing upstream artifact
aborts the stage (`concat_final` logs `Missing scene outputs` and returns),
and a media-tool subprocess failure is caught and logged at the stage
boundary. -/
inductive StageError where
  | missingDependency
  | mediaToolFailure
deriving DecidableEq

/-- `concat_final` (`main.py`): collect the per-scene video and audio
artifacts sorted by filename (`videoIds`/`audioIds` list the scene ids
present on disk, in arbitrary directory-listing order), fail fast when
either collection is empty, otherwise run `concat_videos`; an exception
from it is caught and logged. -/
def concat_final (ok : Nat → Bool) (videoIds audioIds : List Nat)
    (st : ConcatSt) : Except StageError String × ConcatSt :=
  let videos := sortPaths (videoIds.map (sceneFile ".mp4"))
  let audios := sortPaths (audioIds.map (sceneFile ".mp3"))
  if videos.isEmpty || audios.isEmpty then
    (Except.error StageError.missingDependency, st)
  else
    match concat_videos ok videos audios "final_video.mp4" st with
    | (true, st') => (Except.ok "final_video.mp4", st')
    | (false, st') => (Except.error StageError.mediaToolFailure, st')

/-! ## Theorems about the concatenation stage -/

/-- C3 (counterexample): when the very first ffmpeg subprocess fails, the
concat list file just written is NOT removed — `concat_videos` leaves
`concat_list.txt` behind, so the temporaries are not cleaned up "regardless
of whether the concatenation succeeded or failed". -/
theorem c3_cleanup_failure_counterexample :
    (concat_videos (fun _ => false) [sceneFile ".mp4" 1] [sceneFile ".mp3" 1]
        "final_video.mp4" ⟨fun _ => false, [], []⟩).1 = false ∧
    (concat_videos (fun _ => false) [sceneFile ".mp4" 1] [sceneFile ".mp3" 1]
        "final_video.mp4" ⟨fun _ => false, [], []⟩).2.files "concat_list.txt" = true :=
  ⟨rfl, rfl⟩

/-- C3 (amended): the intermediate concat lists and merged temporaries are
removed when every ffmpeg subprocess succeeds (and only then): on the
success path all four temporary files are absent afterwards, whatever the
input lists and prior state; when a subprocess fails, `CalledProcessError`
propagates before the unlink calls and the temporaries written so far
remain on disk. -/
theorem c3_cleanup_on_success (video_list audio_list : List String)
    (output_path : String) (st : ConcatSt) :
    (concat_videos (fun _ => true) video_list audio_list output_path st).1 = true ∧
    (concat_videos (fun _ => true) video_list audio_list output_path st).2.files
      "concat_list.txt" = false ∧
    (concat_videos (fun _ => true) video_list audio_list output_path st).2.files
      "concat_audio.txt" = false ∧
    (concat_videos (fun _ => true) video_list audio_list output_path st).2.files
      "merged_temp.mp4" = false ∧
    (concat_videos (fun _ => true) video_list audio_list output_path st).2.files
      "merged_audio.mp3" = false :=
  ⟨rfl, rfl, rfl, rfl, rfl⟩

/-- C7: invoking the concat stage with zero video artifacts, or zero audio
artifacts, fails fast with `MissingDependency` and leaves the state — in
particular the list of ffmpeg invocations — untouched: no media-tool call
is performed. -/
theorem c7_concat_missing_dependency :
    (∀ (ok : Nat → Bool) (audioIds : List Nat) (st : ConcatSt),
      concat_final ok [] audioIds st = (Except.error StageError.missingDependency, st)) ∧
    (∀ (ok : Nat → Bool) (videoIds : List Nat) (st : ConcatSt),
      concat_final ok videoIds [] st = (Except.error StageError.missingDependency, st)) := by
  constructor
  · intro ok audioIds st
    rfl
  · intro ok videoIds st
    simp [concat_final, sortPaths]

theorem orderedInsert_map (f : Nat → String) (r : String → String → Prop)
    [DecidableRel r] (a : Nat) :
    ∀ l : List Nat, (∀ b ∈ l, (r (f a) (f b) ↔ a ≤ b)) →
      List.orderedInsert r (f a) (l.map f) =
        (List.orderedInsert (· ≤ ·) a l).map f := by
  intro l
  induction l with
  | nil => intro _; rfl
  | cons b bs ih =>
    intro H
    by_cases h : a ≤ b
    · have hr : r (f a) (f b) := (H b (List.mem_cons_self b bs)).mpr h
      simp [List.orderedInsert, h, hr]
    · have hr : ¬ r (f a) (f b) := fun hc =>
        h ((H b (List.mem_cons_self b bs)).mp hc)
      simp only [List.map_cons, List.orderedInsert, if_neg hr, if_neg h,
        List.map_cons]
      rw [ih (fun c hc => H c (List.mem_cons_of_mem b hc))]

theorem insertionSort_map (f : Nat → String) (r : String → String → Prop)
    [DecidableRel r] :
    ∀ l : List Nat, (∀ a ∈ l, ∀ b ∈ l, (r (f a) (f b) ↔ a ≤ b)) →
      List.insertionSort r (l.map f) =
        (List.insertionSort (· ≤ ·) l).map f := by
  intro l
  induction l with
  | nil => intro _; rfl
  | cons a as ih =>
    intro H
    simp only [List.map_cons, List.insertionSort]
    rw [ih (fun c hc d hd =>
      H c (List.mem_cons_of_mem a hc) d (List.mem_cons_of_mem a hd))]
    exact orderedInsert_map f r a (List.insertionSort (· ≤ ·) as)
      (fun b hb =>
        H a (List.mem_cons_self a as) b
          (List.mem_cons_of_mem a ((List.perm_insertionSort (· ≤ ·) as).mem_iff.mp hb)))

set_option maxRecDepth 40000 in
theorem sceneFile_le_iff_mp4 : ∀ i < 100, ∀ j < 100,
    (strLeRel (sceneFile ".mp4" i) (sceneFile ".mp4" j) ↔ i ≤ j) := by decide

set_option maxRecDepth 40000 in
theorem sceneFile_le_iff_mp3 : ∀ i < 100, ∀ j < 100,
    (strLeRel (sceneFile ".mp3" i) (sceneFile ".mp3" j) ↔ i ≤ j) := by decide

/-- C6: for two-digit-safe scene ids (below 100), collecting the per-scene
artifacts sorted by the zero-padded filename — as `concat_final` does with
`sorted(glob(...))` — yields exactly the ascending scene-id order, whatever
order the directory listing produced them in; `concat_videos` then writes
the concat lists in that order. -/
theorem c6_sorted_filenames_match_id_order (ids : List Nat)
    (h : ∀ i ∈ ids, i < 100) (ext : String)
    (hext : ext = ".mp4" ∨ ext = ".mp3") :
    sortPaths (ids.map (sceneFile ext)) =
      (List.insertionSort (· ≤ ·) ids).map (sceneFile ext) := by
  cases hext with
  | inl he =>
    subst he
    exact insertionSort_map (sceneFile ".mp4") strLeRel ids
      (fun a ha b hb => sceneFile_le_iff_mp4 a (h a ha) b (h b hb))
  | inr he =>
    subst he
    exact insertionSort_map (sceneFile ".mp3") strLeRel ids
      (fun a ha b hb => sceneFile_le_iff_mp3 a (h a ha) b (h b hb))

theorem c6_sorted_filenames_match_id_order_witness :
    (∀ i ∈ [3, 1, 10, 2], i < 100) ∧
    sortPaths ([3, 1, 10, 2].map (sceneFile ".mp4")) =
      (List.insertionSort (· ≤ ·) [3, 1, 10, 2]).map (sceneFile ".mp4") :=
  ⟨by decide, c6_sorted_filenames_match_id_order [3, 1, 10, 2] (by decide)
    ".mp4" (Or.inl rfl)⟩

/-! ## The poll loop (`VeoClient._poll_until_done`)

The loop checks the wall clock (`time.time() - start > timeout_sec`) at
the top of every iteration, performs one status query, and sleeps 5
seconds; for a job that never reports `done` it raises the timeout error
the first time the elapsed clock exceeds `timeout_sec`.  Status queries
are modelled as instantaneous, so the clock advances exactly 5 seconds
per iteration; `fuel` is a structural bound on iterations, always
sufficient since the clock strictly increases. -/

/-- Trace of a poll loop run on a never-done job: how many status queries
were made and at what elapsed time the timeout error was raised. -/
structure PollTrace where
  queries : Nat
  raiseTime : Nat
deriving DecidableEq

def poll_go (timeout_sec : Nat) : Nat → Nat → PollTrace
  | 0, t => ⟨0, t⟩
  | fuel + 1, t =>
    if t > timeout_sec then ⟨0, t⟩
    else
      let r := poll_go timeout_sec fuel (t + 5)
      ⟨r.queries + 1, r.raiseTime⟩

/-- `_poll_until_done` on a job whose status polls never report `done`. -/
def poll_never_done (timeout_sec : Nat) : PollTrace :=
  poll_go timeout_sec (timeout_sec + 1) 0

theorem poll_go_spec (timeout_sec : Nat) :
    ∀ (fuel t : Nat), timeout_sec < t + fuel → t ≤ timeout_sec + 5 →
      (poll_go timeout_sec fuel t).raiseTime ≤ timeout_sec + 5 ∧
      (poll_go timeout_sec fuel t).raiseTime =
        t + 5 * (poll_go timeout_sec fuel t).queries := by
  intro fuel
  induction fuel with
  | zero =>
    intro t h1 h2
    exact ⟨h2, by simp [poll_go]⟩
  | succ n ih =>
    intro t h1 h2
    by_cases ht : t > timeout_sec
    · simp only [poll_go, if_pos ht]
      exact ⟨h2, by simp⟩
    · have h1' : timeout_sec < (t + 5) + n := by omega
      have h2' : t + 5 ≤ timeout_sec + 5 := by omega
      obtain ⟨ha, hb⟩ := ih (t + 5) h1' h2'
      simp only [poll_go, if_neg ht]
      refine ⟨ha, ?_⟩
      rw [hb]
      ring

set_option maxRecDepth 8000 in
/-- C4: on a job that never reports `done`, the poll loop raises the
timeout error (`JobTimeout`) no later than `timeout_sec + poll_interval`
(interval fixed at 5s) after it started, instead of polling indefinitely;
the raise time is exactly 5 seconds per status query performed, i.e. each
iteration makes exactly one query and waits the fixed interval; with the
default 600s budget this is 121 queries and a raise at 605s. -/
theorem c4_poll_timeout_bound (timeout_sec : Nat) :
    (poll_never_done timeout_sec).raiseTime ≤ timeout_sec + 5 ∧
    (poll_never_done timeout_sec).raiseTime =
      5 * (poll_never_done timeout_sec).queries ∧
    poll_never_done 600 = ⟨121, 605⟩ := by
  obtain ⟨ha, hb⟩ :=
    poll_go_spec timeout_sec (timeout_sec + 1) 0 (by omega) (by omega)
  exact ⟨ha, by simpa using hb, by decide⟩

/-! ## The transport retry loop (`_get_json`)

`for attempt in range(1, retries + 1)`: one GET per iteration; on an
exception, if more attempts remain the loop sleeps `backoff` seconds and
doubles `backoff` (initial value `DEFAULT_BACKOFF = 2`), otherwise it
raises `AIRequestError`.  `ok a` tells whether attempt number `a`
succeeds. -/

/-- Trace of a `_get_json` run: number of GET attempts performed, the
backoff delays slept between attempts (in order), and whether the call
returned (rather than raising after exhausting its attempts). -/
structure GetTrace where
  attempts : Nat
  sleeps : List Nat
  success : Bool
deriving DecidableEq

def get_json_go (ok : Nat → Bool) (retries : Nat) :
    Nat → List Nat → GetTrace
  | _, [] => ⟨0, [], false⟩
  | backoff, a :: rest =>
    if ok a then ⟨1, [], true⟩
    else if a < retries then
      let t := get_json_go ok retries (backoff * 2) rest
      ⟨t.attempts + 1, backoff :: t.sleeps, t.success⟩
    else ⟨1, [], false⟩

/-- `_get_json` with `retries` attempts (default 3) and initial backoff 2. -/
def get_json (ok : Nat → Bool) (retries : Nat) : GetTrace :=
  get_json_go ok retries 2 (List.range' 1 retries)

theorem get_json_go_attempts_le (ok : Nat → Bool) (retries : Nat) :
    ∀ (l : List Nat) (backoff : Nat),
      (get_json_go ok retries backoff l).attempts ≤ l.length := by
  intro l
  induction l with
  | nil =>
    intro backoff
    simp [get_json_go]
  | cons a rest ih =>
    intro backoff
    by_cases h : ok a = true
    · simp [get_json_go, h]
    · by_cases h2 : a < retries
      · simpa [get_json_go, h, h2] using Nat.succ_le_succ (ih (backoff * 2))
      · simp [get_json_go, h, h2]

theorem get_json_go_sleeps_mono (ok : Nat → Bool) (retries : Nat) :
    ∀ (l : List Nat) (backoff : Nat), 1 ≤ backoff →
      List.Chain' (· ≤ ·) (get_json_go ok retries backoff l).sleeps ∧
      (∀ s ∈ (get_json_go ok retries backoff l).sleeps, backoff ≤ s) := by
  intro l
  induction l with
  | nil =>
    intro backoff _
    simp [get_json_go]
  | cons a rest ih =>
    intro backoff hb
    by_cases h : ok a = true
    · simp [get_json_go, h]
    · by_cases h2 : a < retries
      · obtain ⟨hc, hs⟩ := ih (backoff * 2) (by omega)
        simp only [get_json_go, h, if_neg, Bool.false_eq_true, if_false,
          if_pos h2]
        constructor
        · exact List.chain'_cons'.mpr
            ⟨fun y hy => le_trans (by omega)
              (hs y (List.mem_of_mem_head? hy)), hc⟩
        · intro s hsm
          rcases List.mem_cons.mp hsm with rfl | hsm
          · exact le_refl _
          · exact le_trans (by omega) (hs s hsm)
      · simp [get_json_go, h, h2]

/-- C5: the transport retry loop performs at most `retries` GET attempts
(default 3), and the backoff delays slept between consecutive attempts are
nondecreasing; in the default all-failures case the delays are exactly
2 then 4 seconds (start 2, doubling) around 3 attempts. -/
theorem c5_backoff_monotone (ok : Nat → Bool) (retries : Nat) :
    (get_json ok retries).attempts ≤ retries ∧
    List.Chain' (· ≤ ·) (get_json ok retries).sleeps ∧
    get_json (fun _ => false) 3 = ⟨3, [2, 4], false⟩ := by
  refine ⟨?_, ?_, by decide⟩
  · simpa [List.length_range'] using
      get_json_go_attempts_le ok retries (List.range' 1 retries) 2
  · exact (get_json_go_sleeps_mono ok retries (List.range' 1 retries) 2
      (by omega)).1

/-! ## The pipeline driver (`__main__`) and the script stage -/

/-- The `--stage` command-line selector. -/
inductive StageSel where
  | script
  | scenes
  | concat
  | all
deriving DecidableEq

/-- The three stage functions the driver can invoke. -/
inductive StageName where
  | script
  | scenes
  | concat
deriving DecidableEq

/-- The `if args.stage in [...]` cascade of `__main__`: which stage
functions run, in order, for a requested selection. -/
def driver_stages (sel : StageSel) : List StageName :=
  (if sel = StageSel.script ∨ sel = StageSel.all then [StageName.script] else []) ++
  (if sel = StageSel.scenes ∨ sel = StageSel.all then [StageName.scenes] else []) ++
  (if sel = StageSel.concat ∨ sel = StageSel.all then [StageName.concat] else [])

/-- State of the script stage's artifacts: whether `search_context.txt`
and `scripts/script.json` exist, and how many times `script.json` has been
written. -/
structure ScriptSt where
  searchCtxExists : Bool
  scriptExists : Bool
  scriptWrites : Nat
deriving DecidableEq

/-- `generate_full_script` (`main.py`): phase 1 performs the web-search
text-generation call and writes `search_context.txt` unless `skip_search`
is set; the search context is then (re)read — if the file is missing the
raised `FileNotFoundError` is caught and logged, ending the stage.  Phase 2
performs the script text-generation call and writes `script.json`; note
that nothing checks whether `script.json` already exists — the artifact is
regenerated unconditionally.  `gen_ok` covers the phase-2 remote call and
JSON parse (`AIRequestError` / `JSONDecodeError` are caught and logged,
skipping the write). -/
def generate_full_script (gen_ok : Bool) (skip_search : Bool)
    (st : ScriptSt) : ScriptSt × List RemoteCall :=
  let phase1 : ScriptSt × List RemoteCall :=
    if skip_search then (st, [])
    else ({ st with searchCtxExists := true }, [RemoteCall.genText true])
  let st1 := phase1.1
  let calls := phase1.2
  if st1.searchCtxExists = false then (st1, calls)
  else
    let calls := calls ++ [RemoteCall.genText false]
    if gen_ok = false then (st1, calls)
    else ({ st1 with scriptExists := true
                     scriptWrites := st1.scriptWrites + 1 }, calls)

/-- The driver's script-stage invocation: `__main__` hard-codes
`skip_search=True`. -/
def run_script_stage (gen_ok : Bool) (st : ScriptSt) : ScriptSt × List RemoteCall :=
  generate_full_script gen_ok true st

/-- C8 (counterexample): with the script artifact already present (and the
search context available), running the `script` stage still performs a
remote text-generation call and rewrites `script.json` — the stage is
re-run even though its output artifact exists, and no "force" flag exists
in the interface. -/
theorem c8_script_regenerated_counterexample :
    (run_script_stage true ⟨true, true, 0⟩).1.scriptWrites = 1 ∧
    (run_script_stage true ⟨true, true, 0⟩).2 = [RemoteCall.genText false] :=
  ⟨rfl, rfl⟩

/-- C8 (amended): the driver runs exactly the stage functions selected by
the requested stage, in the declared order (`script`, `scenes`, `concat`
for `all`); but existing outputs do not suppress a stage: the script stage
regenerates `script.json` even when it already exists — only the
web-search phase is skipped, via the hard-coded `skip_search=True` —
artifact-presence skipping exists only per scene inside the scenes stage. -/
theorem c8_stage_selection_amended :
    (∀ sel, driver_stages sel =
      match sel with
      | StageSel.script => [StageName.script]
      | StageSel.scenes => [StageName.scenes]
      | StageSel.concat => [StageName.concat]
      | StageSel.all => [StageName.script, StageName.scenes, StageName.concat]) ∧
    (∀ st : ScriptSt, st.searchCtxExists = true →
      (run_script_stage true st).1.scriptWrites = st.scriptWrites + 1 ∧
      (run_script_stage true st).2 = [RemoteCall.genText false]) := by
  constructor
  · intro sel
    cases sel <;> rfl
  · intro st h
    unfold run_script_stage generate_full_script
    simp [h]

theorem c8_stage_selection_amended_witness :
    (⟨true, true, 0⟩ : ScriptSt).searchCtxExists = true ∧
    (run_script_stage true ⟨true, true, 0⟩).1.scriptWrites =
      (⟨true, true, 0⟩ : ScriptSt).scriptWrites + 1 :=
  ⟨rfl, (c8_stage_selection_amended.2 ⟨true, true, 0⟩ rfl).1⟩

end VideoPipeline
